import Mathlib

/-!
Verification of the LILYGO T-Display-S3 3-colour LED firmware
(src/include/helper_functions.h, src/src/main.cpp, src/main-old.cpp).

The firmware is a single cooperative polling loop over global state:
a colour index, a mode, a button level, a dirty flag (`redrawDisplay`),
and a static timestamp inside `updateAutoColour`.  We embed that state
as the structure `Sys` below and each C++ function as a pure state
transformer.  Hardware effects (digitalWrite, tft drawing) are recorded
in `Sys` as pin levels, the rendered snapshot of each display field,
and observation counters (number of colour advances, number of paints
of each dynamic field, number of full-screen clears, number of HIGH
writes to the backlight pin).  `millis()` is an unsigned 32-bit counter;
its value is passed to each loop iteration as an input and the C++
unsigned subtraction `currentTime - lastColourChangeTime` is modelled
by `usub` (wraparound arithmetic modulo 2^32).
-/

namespace TD3

/-- The mode enumeration `enum class State` of helper_functions.h
(lines 22-25): automatic colour change vs manual colour change. -/
inductive Mode where
  | Colour_CHANGE_AUTO
  | Colour_CHANGE_MANUAL
deriving DecidableEq, Repr

/-- The whole program state.  The first five fields are the C++ globals
(`currentColour` is kept as the underlying enum index 0..6, since
`changeColour` manipulates it with `static_cast` integer arithmetic)
plus the function-local static `lastColourChangeTime` of
`updateAutoColour`.  The pin fields model the GPIO lines (digitalWrite
levels and pinMode configuration).  The `disp*` fields model what the
dynamic region of the screen currently shows (`none` = blank, as after
`drawStaticElements`).  The trailing counters are observation
instrumentation only: they count events (colour advances, field paints,
screen clears, backlight HIGH writes) and influence nothing. -/
structure Sys where
  currentColour : Nat
  currentState : Mode
  buttonPressed : Bool
  redrawDisplay : Bool
  lastColourChangeTime : Nat
  redPin : Bool
  greenPin : Bool
  bluePin : Bool
  backlightPin : Bool
  redConfigured : Bool
  greenConfigured : Bool
  blueConfigured : Bool
  backlightConfigured : Bool
  buttonConfigured : Bool
  dispMode : Option Mode
  dispColour : Option Nat
  dispButton : Option Bool
  advanceCount : Nat
  modePaints : Nat
  colourPaints : Nat
  buttonPaints : Nat
  screenClears : Nat
  backlightHighWrites : Nat
deriving DecidableEq, Repr

/-- The modulus 2^32 of `unsigned long` on the ESP32-S3 target. -/
def UMAX : Nat := 4294967296

/-- C++ unsigned 32-bit subtraction `a - b` (wraparound semantics),
used by `updateAutoColour` for `currentTime - lastColourChangeTime`. -/
def usub (a b : Nat) : Nat := (a % UMAX + UMAX - b % UMAX) % UMAX

/-- The switch of `setLEDColour` (helper_functions.h lines 47-88): maps
a colour index to the three digitalWrite levels (red, green, blue);
the default case falls back to the red pattern. -/
def ledPattern (colour : Nat) : Bool × Bool × Bool :=
  match colour with
  | 0 => (true, false, false)
  | 1 => (false, true, false)
  | 2 => (false, false, true)
  | 3 => (true, true, false)
  | 4 => (true, false, true)
  | 5 => (false, true, true)
  | 6 => (true, true, true)
  | _ => (true, false, false)

/-- Model of `setLEDColour` (helper_functions.h lines 46-90): writes the three
colour-channel pins according to the switch, then unconditionally sets
`redrawDisplay = true` (line 89). -/
def setLEDColour (s : Sys) (colour : Nat) : Sys :=
  { s with
    redPin := (ledPattern colour).1
    greenPin := (ledPattern colour).2.1
    bluePin := (ledPattern colour).2.2
    redrawDisplay := true }

/-- Model of `changeColour` (helper_functions.h lines 93-96): advances
`currentColour` to `(currentColour + 1) % 7` and calls `setLEDColour`
on the new colour.  `advanceCount` is bumped as an observation of the
advance event. -/
def changeColour (s : Sys) : Sys :=
  let s1 := { s with
    currentColour := (s.currentColour + 1) % 7
    advanceCount := s.advanceCount + 1 }
  setLEDColour s1 s1.currentColour

/-- Model of `updateAutoColour` (helper_functions.h lines 99-108) with
`currentTime = millis()` passed in as `now`; the static local
`lastColourChangeTime` lives in `Sys`.  If the unsigned elapsed time
reaches 1000 ms it stores `now`, advances the colour and sets the
redraw flag; otherwise it does nothing. -/
def updateAutoColour (s : Sys) (now : Nat) : Sys :=
  if 1000 ≤ usub now s.lastColourChangeTime then
    let s1 := changeColour { s with lastColourChangeTime := now }
    { s1 with redrawDisplay := true }
  else s

/-- Model of `drawStaticElements` (helper_functions.h lines 111-127): clears the
full screen (counted in `screenClears`) and draws the static labels,
leaving the dynamic fields blank. -/
def drawStaticElements (s : Sys) : Sys :=
  { s with
    screenClears := s.screenClears + 1
    dispMode := none
    dispColour := none
    dispButton := none }

/-- The colour-name array of `updateDynamicElements`
(helper_functions.h line 141). -/
def colourNames : List String :=
  ["RED", "GREEN", "BLUE", "YELLOW", "MAGENTA", "CYAN", "WHITE"]

/-- Model of `updateDynamicElements` (helper_functions.h lines 130-149): on every
call it clears and reprints all three dynamic fields (mode, colour,
button), with no per-field change check.  Each print is recorded in the
rendered snapshot and counted in the corresponding paint counter. -/
def updateDynamicElements (s : Sys) : Sys :=
  { s with
    dispMode := some s.currentState
    dispColour := some s.currentColour
    dispButton := some s.buttonPressed
    modePaints := s.modePaints + 1
    colourPaints := s.colourPaints + 1
    buttonPaints := s.buttonPaints + 1 }

/-- Model of `onShortPress` (helper_functions.h lines 152-157): advances the
colour only in manual mode, then unconditionally sets the redraw
flag. -/
def onShortPress (s : Sys) : Sys :=
  let s1 := if s.currentState = Mode.Colour_CHANGE_MANUAL then changeColour s else s
  { s1 with redrawDisplay := true }

/-- Model of `onLongPressStart` (helper_functions.h lines 159-162): toggles the
mode and sets the redraw flag. -/
def onLongPressStart (s : Sys) : Sys :=
  { s with
    currentState :=
      if s.currentState = Mode.Colour_CHANGE_AUTO then
        Mode.Colour_CHANGE_MANUAL
      else
        Mode.Colour_CHANGE_AUTO
    redrawDisplay := true }

/-- The global initializers of helper_functions.h lines 28-31 together
with zero-initialized statics, unconfigured pins at reset (all LOW) and
a blank screen. -/
def initSys : Sys :=
  { currentColour := 0
    currentState := Mode.Colour_CHANGE_AUTO
    buttonPressed := false
    redrawDisplay := true
    lastColourChangeTime := 0
    redPin := false
    greenPin := false
    bluePin := false
    backlightPin := false
    redConfigured := false
    greenConfigured := false
    blueConfigured := false
    backlightConfigured := false
    buttonConfigured := false
    dispMode := none
    dispColour := none
    dispButton := none
    advanceCount := 0
    modePaints := 0
    colourPaints := 0
    buttonPaints := 0
    screenClears := 0
    backlightHighWrites := 0 }

/-- Model of `setup` (main.cpp lines 81-112): pinMode-configures the three
colour pins, the backlight pin and the button pin, initializes the LED
via `setLEDColour(currentColour)`, clears the screen during tft setup
(line 99), draws the static elements, and sets `redrawDisplay = true`.
Note: `setup` never calls `digitalWrite` on the backlight pin, so
`backlightPin` and `backlightHighWrites` are untouched. -/
def setup (s : Sys) : Sys :=
  let s1 := { s with
    redConfigured := true
    greenConfigured := true
    blueConfigured := true
    backlightConfigured := true
    buttonConfigured := true }
  let s2 := setLEDColour s1 s1.currentColour
  let s3 := { s2 with screenClears := s2.screenClears + 1 }
  let s4 := drawStaticElements s3
  { s4 with redrawDisplay := true }

/-- The button gestures that `keyButton.tick()` can deliver through the
handlers attached in `setup` (main.cpp lines 107-108). -/
inductive BEvent where
  | shortClick
  | longPressStart
deriving DecidableEq, Repr

/-- Dispatch one delivered gesture to its attached handler. -/
def fireEvent (s : Sys) : BEvent → Sys
  | BEvent.shortClick => onShortPress s
  | BEvent.longPressStart => onLongPressStart s

/-- Model of `keyButton.tick()` (main.cpp line 117): delivers the gestures
detected this iteration, in order, to the attached handlers. -/
def btnTick (s : Sys) (events : List BEvent) : Sys :=
  events.foldl fireEvent s

/-- The current loop (main.cpp lines 115-135) up to but excluding the
render step: `keyButton.tick()`, then the button-level sample
`newButtonState = !digitalRead(BUTTON_PIN)` compared against
`buttonPressed` (marking dirty on change), then the mode switch that
calls `updateAutoColour` only in the AUTO branch.  `rawPin` is the raw
active-low level read from the button pin and `now` is `millis()`.
The C++ switch has a default branch resetting the mode to AUTO, but a
`Mode` value is always one of the two enumerators, so it never runs. -/
def loopPreRender (s : Sys) (events : List BEvent) (rawPin : Bool) (now : Nat) : Sys :=
  let s1 := btnTick s events
  let newButtonState := !rawPin
  let s2 :=
    if newButtonState ≠ s1.buttonPressed then
      { s1 with buttonPressed := newButtonState, redrawDisplay := true }
    else s1
  if s2.currentState = Mode.Colour_CHANGE_AUTO then updateAutoColour s2 now else s2

/-- One full iteration of `loop` (main.cpp lines 115-142): the
pre-render steps, then `if (redrawDisplay) { updateDynamicElements;
redrawDisplay = false; }`. -/
def loopIter (s : Sys) (events : List BEvent) (rawPin : Bool) (now : Nat) : Sys :=
  let s1 := loopPreRender s events rawPin now
  if s1.redrawDisplay then
    { updateDynamicElements s1 with redrawDisplay := false }
  else s1

/-- The two `updateAutoColour` invocation sites of the legacy loop
(main-old.cpp lines 256-271): one inside the AUTO branch of the mode
switch (sampling `millis()` as `now1`) and one at the tail of the loop
guarded by the same AUTO check (sampling `now2`).  `displayStatus`
sits between them but touches neither the colour nor the timer. -/
def oldLoopTimerCalls (s : Sys) (now1 now2 : Nat) : Sys :=
  if s.currentState = Mode.Colour_CHANGE_AUTO then
    updateAutoColour (updateAutoColour s now1) now2
  else s

/-- States reachable by the firmware: the state after `setup` on the
freshly initialized globals, closed under loop iterations with
arbitrary gesture deliveries, raw pin levels and clock readings. -/
inductive Reachable : Sys → Prop where
  | init : Reachable (setup initSys)
  | step {s : Sys} (events : List BEvent) (rawPin : Bool) (now : Nat) :
      Reachable s → Reachable (loopIter s events rawPin now)

/-! ## Helper lemmas -/

/-- Unfolding of `changeColour` as a single record update. -/
lemma changeColour_spec (s : Sys) :
    changeColour s = { s with
      currentColour := (s.currentColour + 1) % 7
      advanceCount := s.advanceCount + 1
      redPin := (ledPattern ((s.currentColour + 1) % 7)).1
      greenPin := (ledPattern ((s.currentColour + 1) % 7)).2.1
      bluePin := (ledPattern ((s.currentColour + 1) % 7)).2.2
      redrawDisplay := true } := rfl

/-- Colour evolution under iterated `changeColour`: after `n + 1`
advances the colour index is the start index shifted by `n + 1`,
modulo 7. -/
lemma iterate_changeColour_colour (s : Sys) (n : Nat) :
    (changeColour^[n + 1] s).currentColour = (s.currentColour + n + 1) % 7 := by
  induction n generalizing s with
  | zero => simp [changeColour_spec]
  | succ m ih =>
    have h : changeColour^[m + 1 + 1] s = changeColour^[m + 1] (changeColour s) := by
      rw [Function.iterate_succ_apply]
    rw [h, ih, changeColour_spec]
    simp only
    omega

/-- Unfolding of `updateAutoColour` when the 1000 ms guard holds, as a record
update. -/
lemma updateAutoColour_fired (s : Sys) (now : Nat)
    (h : 1000 ≤ usub now s.lastColourChangeTime) :
    updateAutoColour s now = { s with
      currentColour := (s.currentColour + 1) % 7
      advanceCount := s.advanceCount + 1
      lastColourChangeTime := now
      redPin := (ledPattern ((s.currentColour + 1) % 7)).1
      greenPin := (ledPattern ((s.currentColour + 1) % 7)).2.1
      bluePin := (ledPattern ((s.currentColour + 1) % 7)).2.2
      redrawDisplay := true } := by
  rw [updateAutoColour, if_pos h, changeColour_spec]

/-- Unfolding of `updateAutoColour` when the 1000 ms guard fails: no effect at
all. -/
lemma updateAutoColour_skip (s : Sys) (now : Nat)
    (h : usub now s.lastColourChangeTime < 1000) :
    updateAutoColour s now = s := by
  rw [updateAutoColour, if_neg (by omega)]

/-- The advance counter moves by exactly the guard's verdict in one
`updateAutoColour` call. -/
lemma updateAutoColour_advanceCount (s : Sys) (now : Nat) :
    (updateAutoColour s now).advanceCount =
      s.advanceCount + (if 1000 ≤ usub now s.lastColourChangeTime then 1 else 0) := by
  by_cases h : 1000 ≤ usub now s.lastColourChangeTime
  · rw [updateAutoColour_fired s now h, if_pos h]
  · rw [updateAutoColour_skip s now (by omega), if_neg h]
    omega

/-- Unsigned 32-bit subtraction of wrapped clock readings recovers the
true elapsed time whenever that elapsed time fits in 32 bits. -/
lemma usub_wrap_elapsed (tlast tnow : Nat) (hle : tlast ≤ tnow)
    (hlt : tnow - tlast < UMAX) :
    usub (tnow % UMAX) (tlast % UMAX) = tnow - tlast := by
  unfold usub UMAX
  unfold UMAX at hlt
  omega

/-- Neither gesture handler ever clears the screen. -/
lemma fireEvent_screenClears (s : Sys) (ev : BEvent) :
    (fireEvent s ev).screenClears = s.screenClears := by
  cases ev
  · simp only [fireEvent, onShortPress]
    split_ifs <;> rfl
  · rfl

/-- Delivering any sequence of gestures never clears the screen. -/
lemma btnTick_screenClears (s : Sys) (events : List BEvent) :
    (btnTick s events).screenClears = s.screenClears := by
  induction events generalizing s with
  | nil => rfl
  | cons e es ih =>
    have h : btnTick s (e :: es) = btnTick (fireEvent s e) es := rfl
    rw [h, ih (fireEvent s e), fireEvent_screenClears]

/-- The auto-advance timer never clears the screen. -/
lemma updateAutoColour_screenClears (s : Sys) (now : Nat) :
    (updateAutoColour s now).screenClears = s.screenClears := by
  by_cases h : 1000 ≤ usub now s.lastColourChangeTime
  · rw [updateAutoColour_fired s now h]
  · rw [updateAutoColour_skip s now (by omega)]

/-- The pre-render part of a loop iteration never clears the screen. -/
lemma loopPreRender_screenClears (s : Sys) (events : List BEvent)
    (rawPin : Bool) (now : Nat) :
    (loopPreRender s events rawPin now).screenClears = s.screenClears := by
  simp only [loopPreRender]
  split_ifs
  · rw [updateAutoColour_screenClears]
    exact btnTick_screenClears s events
  · exact btnTick_screenClears s events
  · rw [updateAutoColour_screenClears]
    exact btnTick_screenClears s events
  · exact btnTick_screenClears s events

/-- A gesture-free iteration in which the button level matches the
stored level, the dirty flag is clear and the timer is below its
threshold changes nothing at all. -/
lemma loopIter_idle (s : Sys) (rawPin : Bool) (now : Nat)
    (hd : s.redrawDisplay = false) (hb : (!rawPin) = s.buttonPressed)
    (ht : usub now s.lastColourChangeTime < 1000) :
    loopIter s [] rawPin now = s := by
  have h1 : loopPreRender s [] rawPin now = s := by
    simp only [loopPreRender, btnTick, List.foldl_nil]
    have hbtn : ¬((!rawPin) ≠ s.buttonPressed) := by simp [hb]
    rw [if_neg hbtn]
    split_ifs with hm
    · exact updateAutoColour_skip s now ht
    · rfl
  simp only [loopIter, h1, hd]
  rfl

/-! ## Claim theorems -/

/-- Claim C2: a short-click delivered to the state machine advances the
colour exactly once (index moves to `(i + 1) % 7`, advance count up by
one) when the mode is MANUAL, and leaves the colour and advance count
untouched when the mode is AUTO. -/
theorem C2_short_click_mode_gating (s : Sys) :
    (s.currentState = Mode.Colour_CHANGE_MANUAL →
      (onShortPress s).advanceCount = s.advanceCount + 1 ∧
      (onShortPress s).currentColour = (s.currentColour + 1) % 7) ∧
    (s.currentState = Mode.Colour_CHANGE_AUTO →
      (onShortPress s).advanceCount = s.advanceCount ∧
      (onShortPress s).currentColour = s.currentColour) := by
  cases h : s.currentState <;> simp [onShortPress, h, changeColour_spec]

/-- Witness for C2 at concrete states in each mode. -/
theorem C2_short_click_mode_gating_witness :
    ((onShortPress { initSys with currentState := Mode.Colour_CHANGE_MANUAL }).currentColour
        = (initSys.currentColour + 1) % 7) ∧
    ((onShortPress initSys).currentColour = initSys.currentColour) :=
  ⟨((C2_short_click_mode_gating
      { initSys with currentState := Mode.Colour_CHANGE_MANUAL }).1 rfl).2,
   ((C2_short_click_mode_gating initSys).2 rfl).2⟩

/-- Claim C3: one `changeColour` step sends colour index `i` to
`(i + 1) % 7`, and seven consecutive steps return the colour to its
starting value (for any in-range start index `i < 7`). -/
theorem C3_advance_cyclic (s : Sys) (h : s.currentColour < 7) :
    (changeColour s).currentColour = (s.currentColour + 1) % 7 ∧
    (changeColour^[7] s).currentColour = s.currentColour := by
  constructor
  · rw [changeColour_spec]
  · have h7 : (changeColour^[6 + 1] s).currentColour = (s.currentColour + 6 + 1) % 7 :=
      iterate_changeColour_colour s 6
    rw [h7]
    omega

/-- Witness for C3 at the initial colour RED (index 0). -/
theorem C3_advance_cyclic_witness :
    (changeColour initSys).currentColour = (initSys.currentColour + 1) % 7 ∧
    (changeColour^[7] initSys).currentColour = initSys.currentColour :=
  C3_advance_cyclic initSys (by decide)

/-- Claim C4: `onLongPressStart` (the mode toggle) is an involution on
the mode, and a single application changes neither the current colour
nor the auto-advance timer's last-advance timestamp. -/
theorem C4_toggle_involution (s : Sys) :
    (onLongPressStart (onLongPressStart s)).currentState = s.currentState ∧
    (onLongPressStart s).currentColour = s.currentColour ∧
    (onLongPressStart s).lastColourChangeTime = s.lastColourChangeTime := by
  cases h : s.currentState <;> simp [onLongPressStart, h]

/-- Counterexample to claim C8 as stated: `setLEDColour` does itself
set the dirty flag.  Starting from a state whose dirty flag is clear,
one call to `setLEDColour` leaves the flag set, so state other than the
three channel pin levels has changed. -/
theorem C8_counterexample :
    ({ initSys with redrawDisplay := false } : Sys).redrawDisplay = false ∧
    (setLEDColour { initSys with redrawDisplay := false } 1).redrawDisplay = true := by
  constructor <;> rfl

/-- Claim C8 amended: `setLEDColour` changes only the three channel pin
levels and the dirty flag, which it sets to true itself
(helper_functions.h line 89); every other piece of state is
unchanged. -/
theorem C8_amended_channel_write_frame (s : Sys) (colour : Nat) :
    (setLEDColour s colour).currentColour = s.currentColour ∧
    (setLEDColour s colour).currentState = s.currentState ∧
    (setLEDColour s colour).buttonPressed = s.buttonPressed ∧
    (setLEDColour s colour).lastColourChangeTime = s.lastColourChangeTime ∧
    (setLEDColour s colour).backlightPin = s.backlightPin ∧
    (setLEDColour s colour).redConfigured = s.redConfigured ∧
    (setLEDColour s colour).greenConfigured = s.greenConfigured ∧
    (setLEDColour s colour).blueConfigured = s.blueConfigured ∧
    (setLEDColour s colour).backlightConfigured = s.backlightConfigured ∧
    (setLEDColour s colour).buttonConfigured = s.buttonConfigured ∧
    (setLEDColour s colour).dispMode = s.dispMode ∧
    (setLEDColour s colour).dispColour = s.dispColour ∧
    (setLEDColour s colour).dispButton = s.dispButton ∧
    (setLEDColour s colour).advanceCount = s.advanceCount ∧
    (setLEDColour s colour).modePaints = s.modePaints ∧
    (setLEDColour s colour).colourPaints = s.colourPaints ∧
    (setLEDColour s colour).buttonPaints = s.buttonPaints ∧
    (setLEDColour s colour).screenClears = s.screenClears ∧
    (setLEDColour s colour).backlightHighWrites = s.backlightHighWrites ∧
    (setLEDColour s colour).redrawDisplay = true := by
  refine ⟨rfl, rfl, rfl, rfl, rfl, rfl, rfl, rfl, rfl, rfl,
    rfl, rfl, rfl, rfl, rfl, rfl, rfl, rfl, rfl, rfl⟩

/-- Claim C5: in AUTO mode a timer tick advances the colour exactly
once when the unsigned elapsed time `now - lastColourChangeTime`
reaches 1000 ms and not at all otherwise; the unsigned subtraction
recovers the true elapsed time across counter overflow (so the
comparison never mis-fires as long as the true elapsed time fits in 32
bits); and in MANUAL mode a loop iteration without gestures never
advances the colour, whatever the clock reads. -/
theorem C5_timer_threshold_wraparound :
    (∀ (s : Sys) (now : Nat),
      (1000 ≤ usub now s.lastColourChangeTime →
        (updateAutoColour s now).advanceCount = s.advanceCount + 1 ∧
        (updateAutoColour s now).currentColour = (s.currentColour + 1) % 7 ∧
        (updateAutoColour s now).lastColourChangeTime = now) ∧
      (usub now s.lastColourChangeTime < 1000 → updateAutoColour s now = s)) ∧
    (∀ (tlast tnow : Nat), tlast ≤ tnow → tnow - tlast < UMAX →
      usub (tnow % UMAX) (tlast % UMAX) = tnow - tlast) ∧
    (∀ (s : Sys) (rawPin : Bool) (now : Nat),
      s.currentState = Mode.Colour_CHANGE_MANUAL →
      (loopIter s [] rawPin now).advanceCount = s.advanceCount ∧
      (loopIter s [] rawPin now).currentColour = s.currentColour) := by
  refine ⟨fun s now => ⟨fun h => ?_, fun h => updateAutoColour_skip s now h⟩,
    fun tlast tnow hle hlt => usub_wrap_elapsed tlast tnow hle hlt,
    fun s rawPin now h => ?_⟩
  · rw [updateAutoColour_fired s now h]
    exact ⟨rfl, rfl, rfl⟩
  · simp only [loopIter, loopPreRender, btnTick, List.foldl_nil]
    split_ifs <;> simp_all [updateDynamicElements]

/-- Witness for C5: a fire at elapsed 1000 ms from the initial state, a
wraparound elapsed-time computation crossing 2^32, and a manual-mode
iteration that does not advance. -/
theorem C5_timer_threshold_wraparound_witness :
    (1000 ≤ usub 1000 initSys.lastColourChangeTime ∧
      (updateAutoColour initSys 1000).advanceCount = initSys.advanceCount + 1) ∧
    (4294967000 ≤ 4294968000 ∧ 4294968000 - 4294967000 < UMAX ∧
      usub (4294968000 % UMAX) (4294967000 % UMAX) = 4294968000 - 4294967000) ∧
    (loopIter { initSys with currentState := Mode.Colour_CHANGE_MANUAL } [] true 5).advanceCount
      = ({ initSys with currentState := Mode.Colour_CHANGE_MANUAL } : Sys).advanceCount :=
  ⟨⟨by decide,
    ((C5_timer_threshold_wraparound.1 initSys 1000).1 (by decide)).1⟩,
   ⟨by decide, by decide,
    C5_timer_threshold_wraparound.2.1 4294967000 4294968000 (by decide) (by decide)⟩,
   (C5_timer_threshold_wraparound.2.2
      { initSys with currentState := Mode.Colour_CHANGE_MANUAL } true 5 rfl).1⟩

/-- Advance count over one gesture-free iteration of the current loop:
it can grow by at most one (the lone `updateAutoColour` call site). -/
lemma loopIter_nil_advanceCount (s : Sys) (rawPin : Bool) (now : Nat) :
    (loopIter s [] rawPin now).advanceCount ≤ s.advanceCount + 1 := by
  simp only [loopIter, loopPreRender, btnTick, List.foldl_nil]
  split_ifs <;>
    simp_all [updateDynamicElements, updateAutoColour_advanceCount] <;>
    split_ifs <;> omega

/-- Claim C6: the timer-driven colour advance happens at most once per
iteration, both in the current loop (a single `updateAutoColour` call
site) and in the legacy loop's two chained call sites, where the
timestamp reset of a first firing blocks the second as long as the two
`millis()` samples of one iteration are less than 1000 ms apart. -/
theorem C6_single_advance_per_iteration (s : Sys) (rawPin : Bool) (now1 now2 : Nat)
    (h : usub now2 now1 < 1000) :
    (loopIter s [] rawPin now1).advanceCount ≤ s.advanceCount + 1 ∧
    (oldLoopTimerCalls s now1 now2).advanceCount ≤ s.advanceCount + 1 := by
  refine ⟨loopIter_nil_advanceCount s rawPin now1, ?_⟩
  unfold oldLoopTimerCalls
  split_ifs with hm
  · by_cases h1 : 1000 ≤ usub now1 s.lastColourChangeTime
    · rw [updateAutoColour_fired s now1 h1, updateAutoColour_skip _ now2 h]
    · rw [updateAutoColour_skip s now1 (by omega), updateAutoColour_advanceCount]
      split_ifs <;> omega
  · exact Nat.le_succ _

/-- Witness for C6 on the initial state with both clock samples inside
the first second. -/
theorem C6_single_advance_per_iteration_witness :
    usub 3 0 < 1000 ∧
    (loopIter initSys [] true 0).advanceCount ≤ initSys.advanceCount + 1 ∧
    (oldLoopTimerCalls initSys 0 3).advanceCount ≤ initSys.advanceCount + 1 :=
  ⟨by decide,
   (C6_single_advance_per_iteration initSys true 0 3 (by decide)).1,
   (C6_single_advance_per_iteration initSys true 0 3 (by decide)).2⟩

/-- Counterexample to claim C7 as stated: after `setup`, the backlight
enable line has been written HIGH zero times, not exactly once — the
sketch only pinMode-configures GPIO15 and never calls `digitalWrite`
on it, so the line still sits at its reset-low level. -/
theorem C7_counterexample :
    (setup initSys).backlightConfigured = true ∧
    (setup initSys).backlightHighWrites = 0 ∧
    (setup initSys).backlightHighWrites ≠ 1 ∧
    (setup initSys).backlightPin = false := by
  refine ⟨rfl, rfl, by decide, rfl⟩

/-- Claim C7 amended: at startup, `setup` configures the three
colour-channel lines and the backlight line as outputs (and the button
line as input), but it never drives the backlight line HIGH: the sketch
performs zero HIGH writes on it. -/
theorem C7_amended_setup_backlight :
    (setup initSys).redConfigured = true ∧
    (setup initSys).greenConfigured = true ∧
    (setup initSys).blueConfigured = true ∧
    (setup initSys).backlightConfigured = true ∧
    (setup initSys).buttonConfigured = true ∧
    (setup initSys).backlightHighWrites = 0 ∧
    (setup initSys).backlightPin = false :=
  ⟨rfl, rfl, rfl, rfl, rfl, rfl, rfl⟩

/-- Counterexample to claim C1 as stated: after a short click in AUTO
mode, the next iteration repaints all three fields — and bumps all
three paint counters — even though every field's value equals the
previously rendered value and no full redraw (screen clear plus static
layout) was forced.  The run: boot, one iteration that renders the
initial state, a short click while in AUTO mode, one more iteration. -/
theorem C1_counterexample :
    let s1 := loopIter (setup initSys) [] true 0
    let s2 := onShortPress s1
    let s3 := loopIter s2 [] true 0
    s2.dispMode = some s2.currentState ∧
    s2.dispColour = some s2.currentColour ∧
    s2.dispButton = some s2.buttonPressed ∧
    s3.currentState = s2.currentState ∧
    s3.currentColour = s2.currentColour ∧
    s3.buttonPressed = s2.buttonPressed ∧
    s3.screenClears = s2.screenClears ∧
    s3.modePaints = s2.modePaints + 1 ∧
    s3.colourPaints = s2.colourPaints + 1 ∧
    s3.buttonPaints = s2.buttonPaints + 1 := by
  decide

/-- Claim C1 amended: the render pass has no per-field change check —
in every loop iteration either all three tracked fields are repainted
(when the dirty flag is set at render time) or none is (when it is
clear), the dirty flag is cleared after a render pass, and the loop
never clears and redraws the whole screen.  Across N iterations in
which no gesture arrives, the button level matches the stored level,
the dirty flag starts clear and the timer stays below its threshold,
the state is fixed, so every field is repainted zero times. -/
theorem C1_amended_render_on_dirty :
    (∀ (s : Sys) (events : List BEvent) (rawPin : Bool) (now : Nat),
      (loopIter s events rawPin now).modePaints =
        (loopPreRender s events rawPin now).modePaints +
          (if (loopPreRender s events rawPin now).redrawDisplay then 1 else 0) ∧
      (loopIter s events rawPin now).colourPaints =
        (loopPreRender s events rawPin now).colourPaints +
          (if (loopPreRender s events rawPin now).redrawDisplay then 1 else 0) ∧
      (loopIter s events rawPin now).buttonPaints =
        (loopPreRender s events rawPin now).buttonPaints +
          (if (loopPreRender s events rawPin now).redrawDisplay then 1 else 0) ∧
      (loopIter s events rawPin now).redrawDisplay = false ∧
      (loopIter s events rawPin now).screenClears = s.screenClears) ∧
    (∀ (s : Sys) (rawPin : Bool) (now : Nat) (N : Nat),
      s.redrawDisplay = false → (!rawPin) = s.buttonPressed →
      usub now s.lastColourChangeTime < 1000 →
      (fun t => loopIter t [] rawPin now)^[N] s = s) := by
  constructor
  · intro s events rawPin now
    simp only [loopIter]
    split_ifs with hd
    · refine ⟨by simp [updateDynamicElements, hd], by simp [updateDynamicElements, hd],
        by simp [updateDynamicElements, hd], rfl, ?_⟩
      have h := loopPreRender_screenClears s events rawPin now
      simpa [updateDynamicElements] using h
    · have hd' : (loopPreRender s events rawPin now).redrawDisplay = false := by
        revert hd
        cases (loopPreRender s events rawPin now).redrawDisplay <;> simp
      refine ⟨by simp [hd'], by simp [hd'], by simp [hd'], hd', ?_⟩
      exact loopPreRender_screenClears s events rawPin now
  · intro s rawPin now N hd hb ht
    induction N with
    | zero => rfl
    | succ n ih =>
      rw [Function.iterate_succ_apply]
      have h1 : loopIter s [] rawPin now = s := loopIter_idle s rawPin now hd hb ht
      simpa [h1] using ih

/-- Witness for C1 amended: the iteration after boot (dirty set:
all fields painted once, no screen clear) and five idle iterations
after it (state is a fixpoint, so zero repaints). -/
theorem C1_amended_render_on_dirty_witness :
    ((loopIter (setup initSys) [] true 0).modePaints =
      (loopPreRender (setup initSys) [] true 0).modePaints +
        (if (loopPreRender (setup initSys) [] true 0).redrawDisplay then 1 else 0)) ∧
    ((loopIter (setup initSys) [] true 0).screenClears = (setup initSys).screenClears) ∧
    ((fun t => loopIter t [] true 0)^[5] (loopIter (setup initSys) [] true 0)
      = loopIter (setup initSys) [] true 0) :=
  ⟨((C1_amended_render_on_dirty.1 (setup initSys) [] true 0)).1,
   ((C1_amended_render_on_dirty.1 (setup initSys) [] true 0)).2.2.2.2,
   C1_amended_render_on_dirty.2 (loopIter (setup initSys) [] true 0) true 0 5
     (by decide) (by decide) (by decide)⟩

/-- Claim C9: a short click received in AUTO mode leaves the mode,
colour and button level untouched but still sets the dirty flag, so the
next loop iteration (with no further gesture, an unchanged button level
and the timer below threshold) repaints all three fields even though no
tracked field changed. -/
theorem C9_auto_short_click_forces_repaint (s : Sys) (rawPin : Bool) (now : Nat)
    (h : s.currentState = Mode.Colour_CHANGE_AUTO)
    (hb : (!rawPin) = s.buttonPressed)
    (ht : usub now s.lastColourChangeTime < 1000) :
    onShortPress s = { s with redrawDisplay := true } ∧
    (loopIter (onShortPress s) [] rawPin now).modePaints = s.modePaints + 1 ∧
    (loopIter (onShortPress s) [] rawPin now).colourPaints = s.colourPaints + 1 ∧
    (loopIter (onShortPress s) [] rawPin now).buttonPaints = s.buttonPaints + 1 ∧
    (loopIter (onShortPress s) [] rawPin now).currentState = s.currentState ∧
    (loopIter (onShortPress s) [] rawPin now).currentColour = s.currentColour ∧
    (loopIter (onShortPress s) [] rawPin now).buttonPressed = s.buttonPressed := by
  have hsp : onShortPress s = { s with redrawDisplay := true } := by
    simp [onShortPress, h]
  have hpre : loopPreRender { s with redrawDisplay := true } [] rawPin now
      = { s with redrawDisplay := true } := by
    simp only [loopPreRender, btnTick, List.foldl_nil]
    have hbtn : ¬((!rawPin) ≠ ({ s with redrawDisplay := true } : Sys).buttonPressed) := by
      simp [hb]
    rw [if_neg hbtn]
    rw [if_pos (show ({ s with redrawDisplay := true } : Sys).currentState
      = Mode.Colour_CHANGE_AUTO from h)]
    exact updateAutoColour_skip _ now ht
  have hloop : loopIter { s with redrawDisplay := true } [] rawPin now
      = { updateDynamicElements { s with redrawDisplay := true } with
          redrawDisplay := false } := by
    simp only [loopIter, hpre]
    rfl
  rw [hsp, hloop]
  exact ⟨rfl, rfl, rfl, rfl, rfl, rfl, rfl⟩

/-- Witness for C9: the state after boot and one rendered iteration
(AUTO mode, dirty clear), hit by a short click and one more
iteration. -/
theorem C9_auto_short_click_forces_repaint_witness :
    (loopIter (onShortPress (loopIter (setup initSys) [] true 0)) [] true 0).modePaints
      = (loopIter (setup initSys) [] true 0).modePaints + 1 ∧
    (loopIter (onShortPress (loopIter (setup initSys) [] true 0)) [] true 0).currentColour
      = (loopIter (setup initSys) [] true 0).currentColour :=
  ⟨(C9_auto_short_click_forces_repaint (loopIter (setup initSys) [] true 0) true 0
      (by decide) (by decide) (by decide)).2.1,
   (C9_auto_short_click_forces_repaint (loopIter (setup initSys) [] true 0) true 0
      (by decide) (by decide) (by decide)).2.2.2.2.2.1⟩

/-- The colour written by `onShortPress`, by mode. -/
lemma onShortPress_colour (s : Sys) :
    (onShortPress s).currentColour =
      if s.currentState = Mode.Colour_CHANGE_MANUAL then
        (s.currentColour + 1) % 7
      else s.currentColour := by
  simp only [onShortPress]
  split_ifs <;> simp [changeColour_spec]

/-- Either gesture handler keeps the colour index below 7. -/
lemma fireEvent_colour_lt (s : Sys) (ev : BEvent) (h : s.currentColour < 7) :
    (fireEvent s ev).currentColour < 7 := by
  cases ev
  · have hc := onShortPress_colour s
    simp only [fireEvent]
    rw [hc]
    split_ifs
    · omega
    · exact h
  · exact h

/-- A gesture sequence keeps the colour index below 7. -/
lemma btnTick_colour_lt (s : Sys) (events : List BEvent) (h : s.currentColour < 7) :
    (btnTick s events).currentColour < 7 := by
  induction events generalizing s with
  | nil => exact h
  | cons e es ih =>
    have he : btnTick s (e :: es) = btnTick (fireEvent s e) es := rfl
    rw [he]
    exact ih (fireEvent s e) (fireEvent_colour_lt s e h)

/-- The auto-advance timer keeps the colour index below 7. -/
lemma updateAutoColour_colour_lt (s : Sys) (now : Nat) (h : s.currentColour < 7) :
    (updateAutoColour s now).currentColour < 7 := by
  by_cases hf : 1000 ≤ usub now s.lastColourChangeTime
  · rw [updateAutoColour_fired s now hf]
    simp only
    omega
  · rwa [updateAutoColour_skip s now (by omega)]

/-- The pre-render loop steps keep the colour index below 7. -/
lemma loopPreRender_colour_lt (s : Sys) (events : List BEvent) (rawPin : Bool)
    (now : Nat) (h : s.currentColour < 7) :
    (loopPreRender s events rawPin now).currentColour < 7 := by
  have h1 : (btnTick s events).currentColour < 7 := btnTick_colour_lt s events h
  simp only [loopPreRender]
  split_ifs
  · exact updateAutoColour_colour_lt _ now h1
  · exact h1
  · exact updateAutoColour_colour_lt _ now h1
  · exact h1

/-- A full loop iteration keeps the colour index below 7. -/
lemma loopIter_colour_lt (s : Sys) (events : List BEvent) (rawPin : Bool)
    (now : Nat) (h : s.currentColour < 7) :
    (loopIter s events rawPin now).currentColour < 7 := by
  simp only [loopIter]
  split_ifs
  · exact loopPreRender_colour_lt s events rawPin now h
  · exact loopPreRender_colour_lt s events rawPin now h

/-- Claim C10: in every reachable state the colour index lies in 0..6,
so the `colourNames` array access of `updateDynamicElements` is in
bounds; consequently the default branch of the `setLEDColour` switch
(taken only for an index above 6) and the default branch of the mode
switch (unreachable for the closed two-value `Mode` type) never run. -/
theorem C10_colour_index_invariant (s : Sys) (h : Reachable s) :
    s.currentColour < 7 ∧ s.currentColour < colourNames.length := by
  have hlt : s.currentColour < 7 := by
    induction h with
    | init => decide
    | step events rawPin now hr ih => exact loopIter_colour_lt _ events rawPin now ih
  refine ⟨hlt, ?_⟩
  have hlen : colourNames.length = 7 := rfl
  omega

/-- Witness for C10 at the reachable boot state. -/
theorem C10_colour_index_invariant_witness :
    (setup initSys).currentColour < 7 ∧
    (setup initSys).currentColour < colourNames.length :=
  C10_colour_index_invariant (setup initSys) Reachable.init

end TD3
